import Mathlib

/-!
Verification of the JT51-Synth USB MIDI front-end (src/gateware/jt51synth.py).

The development shallow-embeds the parts of `JT51Synth` the specification
talks about:

* `create_descriptors` — the pure descriptor builder, parameterised by the
  compile-time feature flag `with_midi_in` (the Python code reads it off the
  class attribute `self.with_midi_in`);
* `stall_condition` — the predicate handed to `StallOnlyRequestHandler`;
* the statements of `JT51Synth.elaborate` that drive signals:
  the set of instantiated stream endpoints, the synchronous drive of
  `ep1_out.stream.ready`, the combinational drives of `usb.connect` and
  `usb.full_speed_only`, and the registered stream connection
  `m.d.usb += synthmodule.midi_stream.stream_eq(ep1_out.stream)`.

nMigen semantics used: a signal driven in a synchronous domain (`m.d.usb`)
is a register that holds its reset value (0 by default) during the first
cycle after reset and takes the driven value at each subsequent clock edge;
a signal driven in `m.d.comb` holds the driven value at every cycle.
-/

namespace JT51

/-- USBRequestType from usb_protocol.types: STANDARD = 0, CLASS = 1,
VENDOR = 2, RESERVED = 3. (`classReq` stands for CLASS, a Lean keyword.) -/
inductive USBRequestType
  | standard
  | classReq
  | vendor
  | reserved
deriving DecidableEq

/-- USBDirection from usb_protocol.types: OUT = 0, IN = 1.
(`in_` stands for IN, a Lean keyword; `out` for OUT.) -/
inductive USBDirection
  | out
  | in_
deriving DecidableEq

/-- Numeric value of a USBDirection (the IntEnum value). -/
def USBDirection.val : USBDirection → Nat
  | .out => 0
  | .in_ => 1

/-- USBDirection.to_endpoint_address(self, endpoint_number): returns
endpoint_number | (1 << 7) when the direction is IN, endpoint_number
otherwise. -/
def USBDirection.to_endpoint_address (d : USBDirection) (endpoint_number : Nat) : Nat :=
  if d = .in_ then endpoint_number ||| (1 <<< 7) else endpoint_number

/-- USBDirection.from_endpoint_address(cls, address): a classmethod that
PARSES an endpoint address into a direction, returning cls(address >> 7).
It ignores the instance it is called on (`USBDirection.IN.from_endpoint_address`
behaves the same as `USBDirection.from_endpoint_address`). Faithful for the
one-byte addresses the descriptor field can hold. -/
def USBDirection.from_endpoint_address (address : Nat) : USBDirection :=
  if address >>> 7 = 1 then .in_ else .out

/-- MidiStreamingJackTypes from usb_protocol.types.descriptors.uac:
EMBEDDED = 0x01, EXTERNAL = 0x02 (`ext` stands for EXTERNAL). -/
inductive MidiStreamingJackTypes
  | embedded
  | ext
deriving DecidableEq

/-- Whether a jack descriptor is a MIDI IN jack or a MIDI OUT jack
(MidiInJackDescriptorEmitter vs MidiOutJackDescriptorEmitter). -/
inductive JackDirection
  | in_
  | out
deriving DecidableEq

/-- One MIDI jack descriptor as populated by the emitters: bJackID,
bJackType, the IN/OUT flavour of the emitter class, and the ordered list of
source jack ids added with add_source (always empty for IN jacks, which
have no add_source). -/
structure MidiJackDescriptor where
  bJackID : Nat
  bJackType : MidiStreamingJackTypes
  direction : JackDirection
  sources : List Nat
deriving DecidableEq

/-- A standard MIDI-streaming bulk/data endpoint descriptor as populated in
create_descriptors: bEndpointAddress and wMaxPacketSize. -/
structure MidiBulkEndpointDescriptor where
  bEndpointAddress : Nat
  wMaxPacketSize : Nat
deriving DecidableEq

/-- A class-specific MIDI-streaming bulk endpoint descriptor: the list of
jack ids added with add_associated_jack. -/
structure ClassSpecificMidiEndpointDescriptor where
  associatedJacks : List Nat
deriving DecidableEq

/-- One subordinate descriptor of the class-specific MIDI-streaming
interface, in the order add_subordinate_descriptor was called. -/
inductive MSSubordinate
  | jack (j : MidiJackDescriptor)
  | stdEndpoint (e : MidiBulkEndpointDescriptor)
  | csEndpoint (e : ClassSpecificMidiEndpointDescriptor)
deriving DecidableEq

/-- The standard MIDI-streaming interface descriptor fields set by the
builder. -/
structure StandardMidiStreamingInterfaceDescriptor where
  bInterfaceNumber : Nat
  bNumEndpoints : Nat
deriving DecidableEq

/-- The device descriptor fields set by the builder. The two bcd fields are
kept in hundredths to stay in Nat: bcdUSB = 2.00 is stored as 200 and
bcdDevice = 0.01 as 1. -/
structure DeviceDescriptor where
  bcdUSB_centi : Nat
  bDeviceClass : Nat
  bDeviceSubclass : Nat
  bDeviceProtocol : Nat
  idVendor : Nat
  idProduct : Nat
  iManufacturer : String
  iProduct : String
  iSerialNumber : String
  bcdDevice_centi : Nat
  bNumConfigurations : Nat
deriving DecidableEq

/-- The configuration descriptor: the standard streaming interface plus the
ordered subordinate descriptors of the class-specific streaming interface. -/
structure ConfigurationDescriptor where
  interface : StandardMidiStreamingInterfaceDescriptor
  streamingInterfaceSubordinates : List MSSubordinate
deriving DecidableEq

/-- The full descriptor collection returned by create_descriptors. -/
structure DeviceDescriptorCollection where
  device : DeviceDescriptor
  config : ConfigurationDescriptor
deriving DecidableEq

/-- JT51Synth.MAX_PACKET_SIZE. -/
def MAX_PACKET_SIZE : Nat := 512

/-- JT51Synth.with_midi_in, the compile-time feature flag as set in the
repository ("we currently do not need MIDI feedback from the synth"). -/
def with_midi_in : Bool := false

/-- JT51Synth.create_descriptors, parameterised by the feature flag the
Python method reads from `self.with_midi_in`. Subordinate descriptors
appear in the order the method calls add_subordinate_descriptor:
when the flag is set, first outToHostJack (id 1) then inToDeviceJack (id 2);
then inFromHostJack (id 3) and outFromDeviceJack (id 4); then the standard
and class-specific OUT endpoint descriptors; finally, when the flag is set,
the standard and class-specific IN endpoint descriptors. The IN endpoint's
bEndpointAddress is computed, exactly as in the source, by
`USBDirection.IN.from_endpoint_address(1)` — the address-parsing
classmethod — whose numeric value is taken when the field is emitted. -/
def create_descriptors (with_midi_in : Bool) : DeviceDescriptorCollection :=
  let device : DeviceDescriptor :=
    { bcdUSB_centi := 200
      bDeviceClass := 0xEF
      bDeviceSubclass := 0x02
      bDeviceProtocol := 0x01
      idVendor := 0x16d0
      idProduct := 0x0f3b
      iManufacturer := "N/A"
      iProduct := "JT51-Synth"
      iSerialNumber := "0001"
      bcdDevice_centi := 1
      bNumConfigurations := 1 }
  let interface : StandardMidiStreamingInterfaceDescriptor :=
    { bInterfaceNumber := 0
      bNumEndpoints := if with_midi_in then 2 else 1 }
  let midiInJacks : List MSSubordinate :=
    if with_midi_in then
      [ .jack { bJackID := 1, bJackType := .embedded, direction := .out, sources := [2] },
        .jack { bJackID := 2, bJackType := .ext, direction := .in_, sources := [] } ]
    else []
  let baseJacks : List MSSubordinate :=
    [ .jack { bJackID := 3, bJackType := .embedded, direction := .in_, sources := [] },
      .jack { bJackID := 4, bJackType := .ext, direction := .out, sources := [3] } ]
  let outEndpoints : List MSSubordinate :=
    [ .stdEndpoint { bEndpointAddress := USBDirection.out.to_endpoint_address 1,
                     wMaxPacketSize := MAX_PACKET_SIZE },
      .csEndpoint { associatedJacks := [3] } ]
  let inEndpoints : List MSSubordinate :=
    if with_midi_in then
      [ .stdEndpoint { bEndpointAddress := (USBDirection.from_endpoint_address 1).val,
                       wMaxPacketSize := MAX_PACKET_SIZE },
        .csEndpoint { associatedJacks := [1] } ]
    else []
  { device := device
    config :=
      { interface := interface
        streamingInterfaceSubordinates := midiInJacks ++ baseJacks ++ outEndpoints ++ inEndpoints } }

/-- The SETUP packet header fields the control-request handlers see. -/
structure SetupPacket where
  type : USBRequestType
  request : Nat
  value : Nat
  index : Nat
  length : Nat

/-- The lambda handed to StallOnlyRequestHandler in JT51Synth.elaborate:
(setup.type == USBRequestType.VENDOR) | (setup.type == USBRequestType.RESERVED). -/
def stall_condition (setup : SetupPacket) : Bool :=
  (setup.type == .vendor) || (setup.type == .reserved)

/-- One stream endpoint instantiated by elaborate (USBStreamOutEndpoint /
USBStreamInEndpoint with their constructor arguments). -/
structure StreamEndpoint where
  endpoint_number : Nat
  max_packet_size : Nat
  direction : USBDirection
deriving DecidableEq

/-- The stream endpoints elaborate adds to the USB device with
usb.add_endpoint: always ep1_out, and ep1_in only when with_midi_in is
set. -/
def instantiated_stream_endpoints (with_midi_in : Bool) : List StreamEndpoint :=
  [ { endpoint_number := 1, max_packet_size := MAX_PACKET_SIZE, direction := .out } ]
    ++ (if with_midi_in then
          [ { endpoint_number := 1, max_packet_size := MAX_PACKET_SIZE, direction := .in_ } ]
        else [])

/-- Value of ep1_out.stream.ready over usb-domain clock cycles. The source
drives the signal twice in the same synchronous usb domain: line 140 drives
it to the constant 1 (`m.d.usb += ep1_out.stream.ready.eq(1)`), and the
later line 151, `m.d.usb += synthmodule.midi_stream.stream_eq(ep1_out.stream)`,
drives it again from synthmodule.midi_stream.ready (LUNA's stream_eq
connects the ready field backward, from the attached interface to the
source stream). Under nMigen's last-assignment-wins rule the stream_eq
drive is the effective one, so the register holds its reset value 0 during
cycle 0 (the first cycle after reset) and midi_stream.ready's cycle-t value
at cycle t + 1. SynthModule lives in synthmodule.py, which is not under
src/, so midi_stream.ready is taken as an arbitrary external trace. -/
def ep1_out_stream_ready (midiReady : Nat → Nat) : Nat → Nat
  | 0 => 0
  | t + 1 => midiReady t

/-- The platform button request is commented out in the source and replaced
by the literal 0. -/
def connect_button : Nat := 0

/-- Value of usb.connect at each cycle: `m.d.comb += usb.connect.eq(~connect_button)`,
the bitwise complement of connect_button truncated to the 1-bit signal width. -/
def usb_connect (_cycle : Nat) : Nat :=
  (1 - connect_button % 2) % 2

/-- Value of usb.full_speed_only at each cycle:
`m.d.comb += usb.full_speed_only.eq(0)`. -/
def usb_full_speed_only (_cycle : Nat) : Nat := 0

/-- The per-cycle value of a LUNA stream interface: payload byte, valid,
first and last markers (the unidirectional fields stream_eq forwards). -/
structure StreamPayload where
  payload : Nat
  valid : Bool
  first : Bool
  last : Bool
deriving DecidableEq

/-- Reset value of the stream fields (nMigen signals reset to 0). -/
def streamResetState : StreamPayload :=
  { payload := 0, valid := false, first := false, last := false }

/-- The sequence of values presented at synthmodule.midi_stream's input
over usb-domain cycles, given the sequence of values on ep1_out.stream:
`m.d.usb += synthmodule.midi_stream.stream_eq(ep1_out.stream)` registers
the payload/valid/first/last fields in the usb domain, so midi_stream shows
the reset value at cycle 0 and ep1_out.stream's cycle-t value at cycle
t + 1. -/
def midi_stream_inputs (epTrace : List StreamPayload) : List StreamPayload :=
  streamResetState :: epTrace

/-- The bytes a stream trace delivers: the payloads of the cycles whose
valid indicator is set, in cycle order. -/
def delivered_bytes (trace : List StreamPayload) : List Nat :=
  (trace.filter (fun s => s.valid)).map (fun s => s.payload)

/-- The jack descriptors of the class-specific streaming interface, in
emission order. -/
def streamingJacks (c : DeviceDescriptorCollection) : List MidiJackDescriptor :=
  c.config.streamingInterfaceSubordinates.filterMap fun s =>
    match s with
    | .jack j => some j
    | _ => none

/-- The jack ids of the class-specific streaming interface, in emission
order. -/
def jackIDOrder (c : DeviceDescriptorCollection) : List Nat :=
  (streamingJacks c).map (fun j => j.bJackID)

/-- Whether a subordinate descriptor is a jack descriptor. -/
def isJack : MSSubordinate → Bool
  | .jack _ => true
  | _ => false

/-- The standard bulk/data endpoint descriptors of the class-specific
streaming interface, in emission order (OUT first, then IN when present). -/
def stdEndpointDescriptors (c : DeviceDescriptorCollection) : List MidiBulkEndpointDescriptor :=
  c.config.streamingInterfaceSubordinates.filterMap fun s =>
    match s with
    | .stdEndpoint e => some e
    | _ => none

/-- Every source reference of every jack descriptor names a jack id that
exists in the same descriptor set. -/
def jackSourcesResolve (c : DeviceDescriptorCollection) : Bool :=
  (streamingJacks c).all fun j =>
    j.sources.all fun s =>
      (streamingJacks c).any fun j2 => j2.bJackID == s

/-- C1: for any finite sequence of (byte, valid) values presented on
ep1_out.stream, the sequence of valid bytes delivered to
synthmodule.midi_stream's input by the registered stream connection is
identical and in the same order — no byte lost, duplicated or reordered.
The connection forwards every cycle unconditionally, so the conclusion
holds without any assumption on the drain rate of the synthesis domain. -/
theorem midi_stream_receives_all_out_bytes (epTrace : List StreamPayload) :
    delivered_bytes (midi_stream_inputs epTrace) = delivered_bytes epTrace := by
  simp [delivered_bytes, midi_stream_inputs, streamResetState]

/-- C2: stall_condition is true exactly on Vendor and Reserved request
types and false on Standard and Class, for every request code and payload
(the predicate reads only the type field of the SETUP packet). -/
theorem stall_condition_by_request_type (s : SetupPacket) :
    (s.type = .vendor → stall_condition s = true) ∧
    (s.type = .reserved → stall_condition s = true) ∧
    (s.type = .standard → stall_condition s = false) ∧
    (s.type = .classReq → stall_condition s = false) := by
  refine ⟨?_, ?_, ?_, ?_⟩ <;> intro h <;> simp [stall_condition, h]

/-- Witness for C2: the theorem applied to a concrete Vendor SET_FEATURE
style request, a Reserved request, a Standard GET_DESCRIPTOR and a Class
request. -/
theorem stall_condition_by_request_type_witness :
    stall_condition { type := .vendor, request := 3, value := 1, index := 0, length := 0 } = true ∧
    stall_condition { type := .reserved, request := 0, value := 0, index := 0, length := 0 } = true ∧
    stall_condition { type := .standard, request := 6, value := 0x0100, index := 0, length := 18 } = false ∧
    stall_condition { type := .classReq, request := 1, value := 0, index := 0, length := 0 } = false :=
  ⟨(stall_condition_by_request_type _).1 rfl,
   (stall_condition_by_request_type _).2.1 rfl,
   (stall_condition_by_request_type _).2.2.1 rfl,
   (stall_condition_by_request_type _).2.2.2 rfl⟩

/-- C3: for both values of the feature flag, the streaming interface
descriptor's declared bNumEndpoints equals the number of stream endpoints
elaborate actually instantiates: 1 when disabled, 2 when enabled. -/
theorem declared_endpoint_count_matches_instantiated (b : Bool) :
    (create_descriptors b).config.interface.bNumEndpoints
        = (instantiated_stream_endpoints b).length ∧
    (create_descriptors b).config.interface.bNumEndpoints = (if b then 2 else 1) := by
  cases b <;> decide

/-- C4 (code defect): with the feature flag enabled, the second standard
endpoint descriptor — the IN endpoint's — carries bEndpointAddress 0x00,
not 0x81: the source computes it with USBDirection.IN.from_endpoint_address(1),
which parses 1 as an endpoint address and returns direction OUT (value 0).
The packet size is 512 as documented. -/
theorem in_endpoint_address_is_zero :
    (stdEndpointDescriptors (create_descriptors true))[1]?
        = some { bEndpointAddress := 0x00, wMaxPacketSize := 512 } ∧
    ((stdEndpointDescriptors (create_descriptors true))[1]?).map
        (fun e => e.bEndpointAddress) ≠ some 0x81 := by
  decide

/-- C5 counterexample: with the feature flag enabled, the first jack in the
class-specific streaming interface has id 1, not id 3, and the full jack id
order is [1, 2, 3, 4], not the [3, 4, 1, 2] the claim states. -/
theorem jack_order_counterexample :
    (jackIDOrder (create_descriptors true)).head? = some 1 ∧
    jackIDOrder (create_descriptors true) ≠ [3, 4, 1, 2] := by
  decide

/-- C5 amended: the class-specific streaming interface contains its jacks
in emission order [1, 2, 3, 4] when the flag is enabled (embedded OUT 1,
then external IN 2, then embedded IN 3, then external OUT 4) and [3, 4]
when disabled, and every jack descriptor precedes every endpoint
descriptor. -/
theorem jack_order_in_source (b : Bool) :
    jackIDOrder (create_descriptors b) = (if b then [1, 2, 3, 4] else [3, 4]) ∧
    (create_descriptors b).config.streamingInterfaceSubordinates
      = ((create_descriptors b).config.streamingInterfaceSubordinates.filter isJack)
        ++ ((create_descriptors b).config.streamingInterfaceSubordinates.filter
              (fun s => !(isJack s))) := by
  cases b <;> decide

/-- C6: the emitted jack set is exactly the two declared chains: embedded
IN jack 3 with no sources and external OUT jack 4 sourcing from {3}, plus,
only when the flag is enabled, embedded OUT jack 1 sourcing from {2} and
external IN jack 2 with no sources; jacks 1 and 2 are absent when the flag
is disabled. -/
theorem jack_graph_exact (b : Bool) :
    streamingJacks (create_descriptors b)
      = if b then
          [ { bJackID := 1, bJackType := .embedded, direction := .out, sources := [2] },
            { bJackID := 2, bJackType := .ext, direction := .in_, sources := [] },
            { bJackID := 3, bJackType := .embedded, direction := .in_, sources := [] },
            { bJackID := 4, bJackType := .ext, direction := .out, sources := [3] } ]
        else
          [ { bJackID := 3, bJackType := .embedded, direction := .in_, sources := [] },
            { bJackID := 4, bJackType := .ext, direction := .out, sources := [3] } ] := by
  cases b <;> decide

/-- C7: for both values of the feature flag, every jack id referenced as a
source in any jack descriptor of the emitted set exists as a jack id in the
same set — no dangling source references. -/
theorem jack_sources_resolve (b : Bool) :
    jackSourcesResolve (create_descriptors b) = true := by
  cases b <;> decide

/-- C8 counterexample: ep1_out.stream.ready is driven only in the
synchronous usb domain, so at cycle 0 — the first cycle after reset — the
register still holds its reset value 0 even when the synthesis module holds
midi_stream.ready constantly asserted; the claim that the signal reads 1 at
every cycle, the first after reset included, is false. -/
theorem ready_deasserted_at_reset_cycle :
    ep1_out_stream_ready (fun _ => 1) 0 = 0 ∧
    ep1_out_stream_ready (fun _ => 1) 0 ≠ 1 := by
  constructor
  · rfl
  · decide

/-- C8 amended: ep1_out.stream.ready reads 0 on the first cycle after
reset, and at every later cycle t + 1 it equals the synthesis module's
midi_stream.ready value of cycle t — the stream_eq ready back-connection,
added later in the same usb domain, overrides the constant-1 drive. In
particular the signal is asserted at every cycle after the first whenever
the synthesis module holds midi_stream.ready asserted; it is not the
unconditional constant 1. -/
theorem ready_tracks_synth_ready (midiReady : Nat → Nat) :
    ep1_out_stream_ready midiReady 0 = 0 ∧
    (∀ t, ep1_out_stream_ready midiReady (t + 1) = midiReady t) ∧
    ((∀ t, midiReady t = 1) → ∀ t, ep1_out_stream_ready midiReady (t + 1) = 1) :=
  ⟨rfl, fun _ => rfl, fun h t => h t⟩

/-- Witness for the amended C8: with the synthesis module holding
midi_stream.ready constantly asserted, ep1_out.stream.ready reads 0 at
cycle 0 and 1 at cycle 3. -/
theorem ready_tracks_synth_ready_witness :
    ep1_out_stream_ready (fun _ => 1) 0 = 0 ∧
    ep1_out_stream_ready (fun _ => 1) 3 = 1 :=
  ⟨(ready_tracks_synth_ready (fun _ => 1)).1,
   (ready_tracks_synth_ready (fun _ => 1)).2.2 (fun _ => rfl) 2⟩

/-- C9: the device descriptor carries exactly the documented values: class
0xEF / subclass 0x02 / protocol 0x01, vendor 0x16d0, product 0x0f3b,
revision 0.01 (stored in hundredths), strings "N/A", "JT51-Synth", "0001",
and one configuration — independently of the feature flag. -/
theorem device_descriptor_values (b : Bool) :
    (create_descriptors b).device =
      { bcdUSB_centi := 200
        bDeviceClass := 0xEF
        bDeviceSubclass := 0x02
        bDeviceProtocol := 0x01
        idVendor := 0x16d0
        idProduct := 0x0f3b
        iManufacturer := "N/A"
        iProduct := "JT51-Synth"
        iSerialNumber := "0001"
        bcdDevice_centi := 1
        bNumConfigurations := 1 } := by
  cases b <;> rfl

/-- C10: usb.connect is combinationally 1 and usb.full_speed_only
combinationally 0 at every cycle; both are constants of the build since the
button input is the literal 0 in the source. -/
theorem connect_and_speed_constants :
    (∀ t, usb_connect t = 1) ∧ (∀ t, usb_full_speed_only t = 0) :=
  ⟨fun _ => rfl, fun _ => rfl⟩

end JT51
